import Mathlib

/-!
Shallow embedding of the real-time update layer of the repository
(`src/src/lib/websocket-client.js`): the event emitter, the WebSocket
connection manager and the update facade helpers.  State-mutating
JavaScript methods become pure functions from a manager state to a new
state together with a list of observable effects (wire transmissions,
event-bus publishes, scheduled reconnect timers).  JavaScript object
identity, which drives `Set` membership and callback removal, is
modelled by an explicit reference id (`refId` for subscription objects,
a `Nat` handle for callbacks).
-/

namespace WSClient

/-- Lifecycle of the `this.ws` field: `null`, a socket that is not yet
open (readyState CONNECTING), or an open socket (readyState OPEN). -/
inductive WsRef
  | null
  | connecting
  | opened
  deriving Repr, DecidableEq

/-- A chat-message object (a flat JSON object of string fields), enough
structure to talk about payload equality. -/
abbrev Payload := List (String × String)

/-- An inbound server payload after JSON parsing: its `type` tag and the
optional nested `message` field (absent models JavaScript `undefined`). -/
structure Inbound where
  type : String
  message : Option Payload
  deriving Repr, DecidableEq

/-- The structural (serialized) content of a subscription object, e.g.
`\x7btype: "subscribe_job", jobId\x7d`: the kind tag and the identifying key. -/
structure SubPayload where
  stype : String
  key : String
  deriving Repr, DecidableEq

/-- A subscription object as held in `this.subscriptions`.  `refId`
models JavaScript object identity: two calls that each build a fresh
object get distinct `refId`s even when the structural content agrees. -/
structure Subscription where
  refId : Nat
  payload : SubPayload
  deriving Repr, DecidableEq

/-- Outbound wire messages produced by the manager. -/
inductive OutMsg
  | auth (userId : String)
  | subMsg (p : SubPayload)
  | unsubMsg (p : SubPayload)
  | other (tag : String)
  deriving Repr, DecidableEq

/-- The data argument of an event-bus publish: a full inbound envelope,
the nested message field (possibly `undefined`), or no data at all. -/
inductive EmitData
  | envData (d : Inbound)
  | msgData (m : Option Payload)
  | noData
  deriving Repr, DecidableEq

/-- Observable effects of a manager operation: a wire transmission, an
event-bus publish, or a single-shot reconnect timer being scheduled
(`setTimeout(() => this.connect(userId), delay)`). -/
inductive Effect
  | transmit (m : OutMsg)
  | emitEvt (name : String) (d : EmitData)
  | scheduleReconnect (delay : Nat)
  deriving Repr, DecidableEq

/-- The mutable fields of `WebSocketManager`. -/
structure Manager where
  ws : WsRef
  reconnectAttempts : Nat
  isConnecting : Bool
  messageQueue : List OutMsg
  subscriptions : List Subscription
  deriving Repr, DecidableEq

/-- `this.maxReconnectAttempts = 5`. -/
def maxReconnectAttempts : Nat := 5

/-- `this.reconnectDelay = 1000`. -/
def reconnectDelay : Nat := 1000

/-- JavaScript `Set.add`: membership by object identity (`refId`);
iteration order is insertion order, so the set is a `refId`-keyed list. -/
def setAdd (l : List Subscription) (s : Subscription) : List Subscription :=
  if l.any (fun t => t.refId == s.refId) then l else l ++ [s]

/-- JavaScript `Set.delete`, again keyed by object identity. -/
def setDelete (l : List Subscription) (s : Subscription) : List Subscription :=
  l.filter (fun t => t.refId != s.refId)

/-- `send(message)`: transmit at once when the socket is open, otherwise
append to `this.messageQueue`. -/
def send (st : Manager) (m : OutMsg) : Manager × List Effect :=
  if st.ws = WsRef.opened then (st, [Effect.transmit m])
  else ({ st with messageQueue := st.messageQueue ++ [m] }, [])

/-- `subscribe(subscription)`: add to the set, then `send` the
subscription object itself. -/
def subscribe (st : Manager) (s : Subscription) : Manager × List Effect :=
  let st1 := { st with subscriptions := setAdd st.subscriptions s }
  send st1 (OutMsg.subMsg s.payload)

/-- `unsubscribe(subscription)`: delete from the set, then `send` the
spread copy with `action: "unsubscribe"`. -/
def unsubscribe (st : Manager) (s : Subscription) : Manager × List Effect :=
  let st1 := { st with subscriptions := setDelete st.subscriptions s }
  send st1 (OutMsg.unsubMsg s.payload)

/-- `connect(userId)`: a no-op when already connecting or open,
otherwise mark connecting and create the socket.  The identity is only
captured by the handler closures, so the state transition does not
depend on it. -/
def connect (st : Manager) : Manager :=
  if st.isConnecting || st.ws = WsRef.opened then st
  else { st with isConnecting := true, ws := WsRef.connecting }

/-- `disconnect()`: close the socket if present, null the field, clear
the subscription set and the queue, reset the counter.  The close event
the closed socket later fires is delivered separately via
`handleClose`. -/
def disconnect (st : Manager) : Manager :=
  { ws := WsRef.null, reconnectAttempts := 0, isConnecting := false,
    messageQueue := [], subscriptions := [] }

/-- The `while (this.messageQueue.length > 0)` drain loop of the onopen
handler: shift the head and `send` it.  Fuel makes the recursion
structural; `drain` supplies the initial queue length, which bounds the
iteration count whenever the socket is open. -/
def drainFuel : Nat → Manager → Manager × List Effect
  | 0, st => (st, [])
  | Nat.succ n, st =>
    match st.messageQueue with
    | [] => (st, [])
    | m :: rest =>
      let st1 := { st with messageQueue := rest }
      let r1 := send st1 m
      let r2 := drainFuel n r1.1
      (r2.1, r1.2 ++ r2.2)

/-- Drain the whole outbound queue through `send`. -/
def drain (st : Manager) : Manager × List Effect :=
  drainFuel st.messageQueue.length st

/-- The `this.subscriptions.forEach((s) => this.send(s))` replay loop of
the onopen handler. -/
def replayFuel : List Subscription → Manager → Manager × List Effect
  | [], st => (st, [])
  | s :: rest, st =>
    let r1 := send st (OutMsg.subMsg s.payload)
    let r2 := replayFuel rest r1.1
    (r2.1, r1.2 ++ r2.2)

/-- Replay every entry of the subscription set. -/
def replayAll (st : Manager) : Manager × List Effect :=
  replayFuel st.subscriptions st

/-- The onopen handler: clear `isConnecting`, zero the reconnect
counter (the socket is now OPEN), send the auth message when `userId`
is truthy, drain the queue, replay the subscriptions, then publish
`websocket_connected`. -/
def handleOpen (st : Manager) (userId : Option String) : Manager × List Effect :=
  let st0 := { st with isConnecting := false, reconnectAttempts := 0, ws := WsRef.opened }
  let r1 :=
    match userId with
    | some uid => if uid = "" then (st0, ([] : List Effect)) else send st0 (OutMsg.auth uid)
    | none => (st0, ([] : List Effect))
  let r2 := drain r1.1
  let r3 := replayAll r2.1
  (r3.1, r1.2 ++ r2.2 ++ r3.2 ++ [Effect.emitEvt "websocket_connected" EmitData.noData])

/-- The onclose handler: clear `isConnecting`, null the socket; below
the maximum attempt count increment the counter and schedule a single
deferred `connect` after `reconnectDelay * 2 ^ (attempts - 1)` ms,
otherwise publish `websocket_disconnected`. -/
def handleClose (st : Manager) : Manager × List Effect :=
  let st0 := { st with isConnecting := false, ws := WsRef.null }
  if st0.reconnectAttempts < maxReconnectAttempts then
    let st1 := { st0 with reconnectAttempts := st0.reconnectAttempts + 1 }
    (st1, [Effect.scheduleReconnect (reconnectDelay * 2 ^ (st1.reconnectAttempts - 1))])
  else
    (st0, [Effect.emitEvt "websocket_disconnected" EmitData.noData])

/-- The onerror handler: only clears `isConnecting`. -/
def handleError (st : Manager) : Manager :=
  { st with isConnecting := false }

/-- The onmessage handler on a successfully parsed payload: republish
the envelope verbatim under its own type tag, then the derived event
for the fixed set of known tags. -/
def handleMessage (d : Inbound) : List Effect :=
  Effect.emitEvt d.type (EmitData.envData d) ::
  (match d.type with
   | "job_updated" => [Effect.emitEvt "job_update" (EmitData.envData d)]
   | "new_message" => [Effect.emitEvt "new_message" (EmitData.msgData d.message)]
   | "payment_updated" => [Effect.emitEvt "payment_update" (EmitData.envData d)]
   | "escrow_released" => [Effect.emitEvt "escrow_released" (EmitData.envData d)]
   | "transaction_updated" => [Effect.emitEvt "transaction_update" (EmitData.envData d)]
   | _ => [])

/-! The event emitter.  `this.events` is an object mapping event name to
an array of callbacks; callbacks are identified by reference, modelled
as `Nat` handles. -/

/-- The event registry `this.events`. -/
abbrev Events := List (String × List Nat)

/-- Property read `this.events[event]`, with `undefined` read as the
absent list (`on` guards with `if (!this.events[event])`, and `emit`
skips absent entries). -/
def getCbs : Events → String → List Nat
  | [], _ => []
  | (k, v) :: rest, e => if k = e then v else getCbs rest e

/-- Property write `this.events[event] = l`. -/
def setCbs : Events → String → List Nat → Events
  | [], e, l => [(e, l)]
  | (k, v) :: rest, e, l =>
    if k = e then (k, l) :: rest else (k, v) :: setCbs rest e l

/-- `EventEmitter.on`: push the callback onto the (possibly fresh)
array for the event. -/
def onEvt (ev : Events) (e : String) (cb : Nat) : Events :=
  setCbs ev e (getCbs ev e ++ [cb])

/-- The unsubscribe closure returned by `on`: replace the array by the
one filtered of that callback reference. -/
def offApply (ev : Events) (e : String) (cb : Nat) : Events :=
  setCbs ev e ((getCbs ev e).filter (fun c => c != cb))

/-- `EventEmitter.emit`: invoke every callback registered for the event
in order, each inside try/catch.  `beh` gives each callback reference
its behaviour on the published data; the trace records every invocation
together with its caught outcome — a thrown error is swallowed and the
iteration continues, so the trace always covers the whole array. -/
def emitTrace (beh : Nat → EmitData → Except String Unit) (ev : Events)
    (e : String) (d : EmitData) : List (Nat × Except String Unit) :=
  (getCbs ev e).map (fun cb => (cb, beh cb d))

/-! The update facade helpers (`useRealTimeUpdates`). -/

/-- `subscribeToJobUpdates(jobId, callback)`: build a fresh subscription
object (fresh `refId`), register it with the manager, register the
callback for `job_update`. -/
def subscribeToJobUpdatesM (st : Manager) (ev : Events) (refId : Nat)
    (jobId : String) (cb : Nat) : (Manager × Events) × List Effect :=
  let s : Subscription := ⟨refId, ⟨"subscribe_job", jobId⟩⟩
  let r1 := subscribe st s
  ((r1.1, onEvt ev "job_update" cb), r1.2)

/-- The teardown closure returned by `subscribeToJobUpdates`: call
`wsManager.unsubscribe(subscription)` with the captured subscription
object, then the captured event-bus unsubscribe closure. -/
def teardownJob (p : Manager × Events) (refId : Nat) (jobId : String)
    (cb : Nat) : (Manager × Events) × List Effect :=
  let s : Subscription := ⟨refId, ⟨"subscribe_job", jobId⟩⟩
  let r1 := unsubscribe p.1 s
  ((r1.1, offApply p.2 "job_update" cb), r1.2)

/-- Outcome of the awaited `messageAPI.getMessages` call inside a
polling tick: a resolved `\x7bsuccess, messages\x7d` object, or a rejection
that lands in the catch block. -/
inductive FetchResult
  | ok (success : Bool) (messages : Option (List Payload))
  | exn
  deriving Repr, DecidableEq

/-- One tick of the `startMessagePolling` interval: on a successful
fetch with a non-empty list publish the latest message (last element,
newest last) as `new_message`; otherwise do nothing.  A rejection is
caught and logged.  The returned flag says whether the interval timer
is still running after the tick — nothing in the tick ever clears it. -/
def pollTick (r : FetchResult) : Bool × List Effect :=
  match r with
  | FetchResult.ok success msgs =>
    (true,
      if success then
        match msgs with
        | some ms =>
          if 0 < ms.length then
            [Effect.emitEvt "new_message" (EmitData.msgData ms.getLast?)]
          else []
        | none => []
      else [])
  | FetchResult.exn => (true, [])

/-! Concrete fixture states used by scenario theorems. -/

/-- A manager with an open socket and no pending state. -/
def connMgr : Manager :=
  { ws := WsRef.opened, reconnectAttempts := 0, isConnecting := false,
    messageQueue := [], subscriptions := [] }

/-- A manager that has never connected. -/
def freshMgr : Manager :=
  { ws := WsRef.null, reconnectAttempts := 0, isConnecting := false,
    messageQueue := [], subscriptions := [] }

/-- A terminally disconnected manager: the counter has reached the
maximum and no retry is pending. -/
def termMgr : Manager :=
  { ws := WsRef.null, reconnectAttempts := 5, isConnecting := false,
    messageQueue := [], subscriptions := [] }

/-- A connected manager mid-session: some prior failed attempts, one
queued message, one live subscription. -/
def busyMgr : Manager :=
  { ws := WsRef.opened, reconnectAttempts := 3, isConnecting := false,
    messageQueue := [OutMsg.other "ping"],
    subscriptions := [⟨0, ⟨"subscribe_job", "j1"⟩⟩] }

/-- The scenario state of P2: connecting, queue `[ping]`, subscription
set `\x7bsubscribe_job j1\x7d`. -/
def scnMgr : Manager :=
  { ws := WsRef.null, reconnectAttempts := 0, isConnecting := true,
    messageQueue := [OutMsg.other "ping"],
    subscriptions := [⟨0, ⟨"subscribe_job", "j1"⟩⟩] }

/-- Registering the same structural subscription through two distinct
objects (refIds 0 and 1), as two `subscribeToJobUpdates` calls do. -/
def dupSubMgr : Manager :=
  (subscribe (subscribe connMgr ⟨0, ⟨"subscribe_job", "j1"⟩⟩).1
    ⟨1, ⟨"subscribe_job", "j1"⟩⟩).1

/-- State after one `subscribeToJobUpdates(j1, cb 7)` call on a
connected manager (the subscription object has refId 0). -/
def jobPair : Manager × Events :=
  (subscribeToJobUpdatesM connMgr [] 0 "j1" 7).1

/-- Number of unsubscribe wire messages in an effect list. -/
def countUnsub (effs : List Effect) : Nat :=
  effs.countP (fun e =>
    match e with
    | Effect.transmit (OutMsg.unsubMsg _) => true
    | _ => false)

/-- The combined effects of invoking the teardown closure of `jobPair`
twice in a row. -/
def twoTeardownEffects : List Effect :=
  (teardownJob jobPair 0 "j1" 7).2 ++
    (teardownJob (teardownJob jobPair 0 "j1" 7).1 0 "j1" 7).2

/-- A callback behaviour where callback 1 throws and every other
callback returns normally. -/
def behBoom : Nat → EmitData → Except String Unit :=
  fun c _ => if c = 1 then Except.error "boom" else Except.ok ()

/-- A registry with three callbacks on `job_update` and one on
`payment_update`. -/
def isoEvents : Events :=
  [("job_update", [0, 1, 2]), ("payment_update", [5])]

/-- The onopen auth step as a function of the captured identity:
`if (userId) this.send(auth)` with the socket open. -/
def authEffects : Option String → List Effect
  | some uid => if uid = "" then [] else [Effect.transmit (OutMsg.auth uid)]
  | none => []

/-- Alternating retry run: an (externally or timer triggered) `connect`
followed by an unsolicited close, `n` times, accumulating effects. -/
def closeRun : Nat → Manager → Manager × List Effect
  | 0, st => (st, [])
  | Nat.succ n, st =>
    let r1 := handleClose (connect st)
    let r2 := closeRun n r1.1
    (r2.1, r1.2 ++ r2.2)

/-! Helper lemmas. -/

theorem send_opened (st : Manager) (m : OutMsg) (h : st.ws = WsRef.opened) :
    send st m = (st, [Effect.transmit m]) := by
  simp [send, h]

theorem drainFuel_opened (n : Nat) : ∀ st : Manager, st.ws = WsRef.opened →
    st.messageQueue.length ≤ n →
    drainFuel n st = ({ st with messageQueue := [] }, st.messageQueue.map Effect.transmit) := by
  induction n with
  | zero =>
    intro st hws hlen
    have hq : st.messageQueue = [] := List.length_eq_zero.mp (Nat.le_zero.mp hlen)
    obtain ⟨w, r, c, q, s⟩ := st
    simp at hq
    subst hq
    simp [drainFuel]
  | succ n ih =>
    intro st hws hlen
    obtain ⟨w, r, c, q, s⟩ := st
    simp at hws
    subst hws
    cases q with
    | nil => simp [drainFuel]
    | cons m rest =>
      have hlen2 : rest.length ≤ n := by
        simp at hlen
        omega
      have h2 := ih ⟨WsRef.opened, r, c, rest, s⟩ rfl hlen2
      simp at h2
      simp [drainFuel, send, h2]

theorem drain_opened (st : Manager) (h : st.ws = WsRef.opened) :
    drain st = ({ st with messageQueue := [] }, st.messageQueue.map Effect.transmit) :=
  drainFuel_opened st.messageQueue.length st h (Nat.le_refl _)

theorem replayFuel_opened (l : List Subscription) : ∀ st : Manager, st.ws = WsRef.opened →
    replayFuel l st = (st, l.map (fun s => Effect.transmit (OutMsg.subMsg s.payload))) := by
  induction l with
  | nil => intro st hws; simp [replayFuel]
  | cons a rest ih =>
    intro st hws
    simp [replayFuel, send_opened st _ hws, ih st hws]

theorem replayAll_opened (st : Manager) (h : st.ws = WsRef.opened) :
    replayAll st =
      (st, st.subscriptions.map (fun s => Effect.transmit (OutMsg.subMsg s.payload))) :=
  replayFuel_opened st.subscriptions st h

theorem getCbs_setCbs_same (ev : Events) (e : String) (l : List Nat) :
    getCbs (setCbs ev e l) e = l := by
  induction ev with
  | nil => simp [setCbs, getCbs]
  | cons kv rest ih =>
    obtain ⟨k, v⟩ := kv
    by_cases h : k = e <;> simp [setCbs, getCbs, h, ih]

theorem getCbs_setCbs_other (ev : Events) (e e2 : String) (l : List Nat)
    (h : e2 ≠ e) : getCbs (setCbs ev e l) e2 = getCbs ev e2 := by
  have h2 : e ≠ e2 := Ne.symm h
  induction ev with
  | nil => simp [setCbs, getCbs, h2]
  | cons kv rest ih =>
    obtain ⟨k, v⟩ := kv
    by_cases hk : k = e
    · subst hk
      simp [setCbs, getCbs, h2]
    · simp [setCbs, getCbs, hk, ih]

theorem setCbs_setCbs (ev : Events) (e : String) (l l2 : List Nat) :
    setCbs (setCbs ev e l) e l2 = setCbs ev e l2 := by
  induction ev with
  | nil => simp [setCbs]
  | cons kv rest ih =>
    obtain ⟨k, v⟩ := kv
    by_cases h : k = e <;> simp [setCbs, h, ih]

theorem filter_idem {α : Type} (p : α → Bool) (l : List α) :
    (l.filter p).filter p = l.filter p := by
  induction l with
  | nil => rfl
  | cons a t ih =>
    by_cases h : p a <;> simp [List.filter_cons, h, ih]

theorem offApply_idem (ev : Events) (e : String) (cb : Nat) :
    offApply (offApply ev e cb) e cb = offApply ev e cb := by
  simp [offApply, getCbs_setCbs_same, setCbs_setCbs, filter_idem]

theorem count_transmit_sub (l : List Subscription) (p : SubPayload) :
    (l.map (fun s => Effect.transmit (OutMsg.subMsg s.payload))).count
        (Effect.transmit (OutMsg.subMsg p)) =
      l.countP (fun s => s.payload == p) := by
  induction l with
  | nil => rfl
  | cons a t ih =>
    simp [List.count_cons, List.countP_cons, ih]

theorem setAdd_fresh (l : List Subscription) (s : Subscription)
    (h : ∀ t ∈ l, t.refId ≠ s.refId) : setAdd l s = l ++ [s] := by
  have : l.any (fun t => t.refId == s.refId) = false := by
    simp [List.any_eq_false]
    exact h
  simp [setAdd, this]

theorem setAdd_present (l : List Subscription) (s : Subscription)
    (h : s ∈ l) : setAdd l s = l := by
  have : l.any (fun t => t.refId == s.refId) = true := by
    simp [List.any_eq_true]
    exact ⟨s, h, rfl⟩
  simp [setAdd, this]

theorem send_attempts (st : Manager) (m : OutMsg) :
    ((send st m).1).reconnectAttempts = st.reconnectAttempts := by
  simp only [send]
  split <;> rfl

theorem drainFuel_attempts (n : Nat) : ∀ st : Manager,
    ((drainFuel n st).1).reconnectAttempts = st.reconnectAttempts := by
  induction n with
  | zero => intro st; rfl
  | succ n ih =>
    intro st
    simp only [drainFuel]
    match hq : st.messageQueue with
    | [] => rfl
    | m :: rest =>
      simp only []
      rw [ih]
      simp [send]
      split <;> rfl

theorem replayFuel_attempts (l : List Subscription) : ∀ st : Manager,
    ((replayFuel l st).1).reconnectAttempts = st.reconnectAttempts := by
  induction l with
  | nil => intro st; rfl
  | cons a rest ih =>
    intro st
    simp only [replayFuel]
    rw [ih]
    exact send_attempts st _

/-! Claim theorems. -/

/-- C4: on 5 consecutive unsolicited closes with no successful open in
between, the scheduled reconnect delays are exactly 1000, 2000, 4000,
8000, 16000 ms in that order; the 6th close finds the counter at the
maximum, publishes `websocket_disconnected`, schedules no further
retry, and leaves the manager terminally disconnected. -/
theorem backoff_sequence :
    (closeRun 6 freshMgr).2 =
      [Effect.scheduleReconnect 1000, Effect.scheduleReconnect 2000,
       Effect.scheduleReconnect 4000, Effect.scheduleReconnect 8000,
       Effect.scheduleReconnect 16000,
       Effect.emitEvt "websocket_disconnected" EmitData.noData] ∧
    (closeRun 6 freshMgr).1 =
      { ws := WsRef.null, reconnectAttempts := 5, isConnecting := false,
        messageQueue := [], subscriptions := [] } := by
  decide

/-- C2: `disconnect()` does perform the hard reset the claim describes
(socket nulled, subscription set and queue cleared, counter zeroed),
but the close event the explicitly closed channel then fires is handled
by the same onclose path as an unsolicited close: it finds the counter
at 0, increments it and schedules an automatic `connect` after 1000 ms,
contradicting the part of the claim that says no automatic connect ever
occurs after `disconnect()`. -/
theorem disconnect_close_still_schedules_reconnect :
    disconnect busyMgr =
      { ws := WsRef.null, reconnectAttempts := 0, isConnecting := false,
        messageQueue := [], subscriptions := [] } ∧
    (handleClose (disconnect busyMgr)).2 = [Effect.scheduleReconnect 1000] ∧
    ((handleClose (disconnect busyMgr)).1).reconnectAttempts = 1 := by
  decide

/-- C6: an inbound envelope tagged `new_message` is republished twice:
once raw under its own tag with the full envelope, and once as the
derived event with exactly the nested message field as payload. -/
theorem new_message_derived_event (m : Payload) :
    handleMessage ⟨"new_message", some m⟩ =
      [Effect.emitEvt "new_message" (EmitData.envData ⟨"new_message", some m⟩),
       Effect.emitEvt "new_message" (EmitData.msgData (some m))] := by
  rfl

/-- C9: a polling tick whose fetch succeeds with a non-empty message
list publishes exactly one `new_message` event carrying the single
most-recent message (newest last); a failed or rejected fetch publishes
nothing; in every case the interval timer keeps running. -/
theorem polling_latest_only (l : List Payload) (m : Payload)
    (b : Option (List Payload)) :
    pollTick (FetchResult.ok true (some (l ++ [m]))) =
      (true, [Effect.emitEvt "new_message" (EmitData.msgData (some m))]) ∧
    pollTick FetchResult.exn = (true, []) ∧
    pollTick (FetchResult.ok false b) = (true, []) := by
  refine ⟨?_, rfl, rfl⟩
  simp [pollTick, List.getLast?_concat]

/-- C8: when one registered callback throws during a publish, the
try/catch around each invocation swallows the failure, so every
callback registered for that event still runs in registration order,
the publish returns normally, and a later publish for any other event
name again runs all of its callbacks. -/
theorem callback_isolation (ev : Events) (e e2 : String) (d d2 : EmitData)
    (beh : Nat → EmitData → Except String Unit) (cb : Nat)
    (hmem : cb ∈ getCbs ev e)
    (hthrows : ∃ msg, beh cb d = Except.error msg) :
    (emitTrace beh ev e d).map Prod.fst = getCbs ev e ∧
    (emitTrace beh ev e2 d2).map Prod.fst = getCbs ev e2 := by
  constructor <;> simp [emitTrace, Function.comp_def]

/-- C8 witness: a concrete registry where callback 1 of `job_update`
throws; the `job_update` publish still reaches callbacks 0, 1, 2 and a
later `payment_update` publish reaches callback 5. -/
theorem callback_isolation_witness :
    1 ∈ getCbs isoEvents "job_update" ∧
    (∃ msg, behBoom 1 EmitData.noData = Except.error msg) ∧
    (emitTrace behBoom isoEvents "job_update" EmitData.noData).map Prod.fst =
      getCbs isoEvents "job_update" ∧
    (emitTrace behBoom isoEvents "payment_update" EmitData.noData).map Prod.fst =
      getCbs isoEvents "payment_update" :=
  ⟨by decide, ⟨"boom", rfl⟩,
    (callback_isolation isoEvents "job_update" "payment_update" EmitData.noData
      EmitData.noData behBoom 1 (by decide) ⟨"boom", rfl⟩).1,
    (callback_isolation isoEvents "job_update" "payment_update" EmitData.noData
      EmitData.noData behBoom 1 (by decide) ⟨"boom", rfl⟩).2⟩

/-- C7: the unsubscribe closure returned by the event-bus subscribe
replaces the callback array by the one filtered of that callback
reference: the callback is gone, the other callbacks keep their
relative order (the new array is exactly the old one filtered), a
second invocation is a no-op, and arrays of other event names are
untouched. -/
theorem unsubscribe_handle_exact (ev : Events) (e : String) (cb : Nat) :
    getCbs (offApply ev e cb) e = (getCbs ev e).filter (fun c => c != cb) ∧
    cb ∉ getCbs (offApply ev e cb) e ∧
    offApply (offApply ev e cb) e cb = offApply ev e cb ∧
    ∀ e2, e2 ≠ e → getCbs (offApply ev e cb) e2 = getCbs ev e2 := by
  refine ⟨getCbs_setCbs_same ev e _, ?_, offApply_idem ev e cb, ?_⟩
  · simp [offApply, getCbs_setCbs_same, List.mem_filter]
  · intro e2 h
    exact getCbs_setCbs_other ev e e2 _ h

/-- C7 witness: removing callback 3 from a concrete registry leaves
`other_evt` untouched. -/
theorem unsubscribe_handle_exact_witness :
    (("other_evt" : String) ≠ "job_update") ∧
    getCbs (offApply [("job_update", [3, 7, 9]), ("other_evt", [1])]
        "job_update" 3) "other_evt" =
      getCbs [("job_update", [3, 7, 9]), ("other_evt", [1])] "other_evt" :=
  ⟨by decide,
    (unsubscribe_handle_exact [("job_update", [3, 7, 9]), ("other_evt", [1])]
        "job_update" 3).2.2.2 "other_evt" (by decide)⟩

/-- C5: on a successful open the manager first sends the auth message
for a truthy identity, then drains the outbound queue in strict FIFO
order, then replays the subscription set, then publishes
`websocket_connected`; in the P2 scenario (identity u1, queue holding
ping, subscription set holding subscribe_job j1) the transmissions are
auth(u1), ping, subscribe_job(j1), followed by a single connected
publish. -/
theorem fifo_drain_before_replay :
    (∀ (st : Manager) (u : Option String),
      (handleOpen st u).2 =
        authEffects u ++ st.messageQueue.map Effect.transmit ++
        st.subscriptions.map (fun s => Effect.transmit (OutMsg.subMsg s.payload)) ++
        [Effect.emitEvt "websocket_connected" EmitData.noData] ∧
      ((handleOpen st u).1).messageQueue = []) ∧
    (handleOpen scnMgr (some "u1")).2 =
      [Effect.transmit (OutMsg.auth "u1"), Effect.transmit (OutMsg.other "ping"),
       Effect.transmit (OutMsg.subMsg ⟨"subscribe_job", "j1"⟩),
       Effect.emitEvt "websocket_connected" EmitData.noData] ∧
    ((handleOpen scnMgr (some "u1")).2).count
        (Effect.emitEvt "websocket_connected" EmitData.noData) = 1 := by
  refine ⟨?_, by decide, by decide⟩
  intro st u
  obtain ⟨w, r, c, q, su⟩ := st
  have hdrain := drain_opened ⟨WsRef.opened, 0, false, q, su⟩ rfl
  have hreplay := replayAll_opened ⟨WsRef.opened, 0, false, ([] : List OutMsg), su⟩ rfl
  simp at hdrain hreplay
  cases u with
  | none => simp [handleOpen, authEffects, hdrain, hreplay]
  | some uid =>
    by_cases he : uid = "" <;>
      simp [handleOpen, authEffects, he, send, hdrain, hreplay]

/-- C1 counterexample: two structurally equal subscription objects
(same kind tag `subscribe_job` and same key j1, but two distinct object
allocations, refIds 0 and 1) both enter the subscription set — the set
deduplicates by object identity, not structural equality — so the set
holds two entries, not one, and the reconnect replay transmits the
structurally identical subscription twice. -/
theorem structural_dedup_counterexample :
    Subscription.payload ⟨0, ⟨"subscribe_job", "j1"⟩⟩ =
      Subscription.payload ⟨1, ⟨"subscribe_job", "j1"⟩⟩ ∧
    dupSubMgr.subscriptions.length = 2 ∧
    ¬ dupSubMgr.subscriptions.length = 1 ∧
    (replayAll dupSubMgr).2.count
        (Effect.transmit (OutMsg.subMsg ⟨"subscribe_job", "j1"⟩)) = 2 := by
  decide

/-- C1 amended: the subscription set deduplicates by object identity
(reference equality): registering the same subscription object twice
leaves a single entry, and a set entry whose payload no other entry
shares is replayed exactly once per reconnect; distinct objects are
never merged, even when structurally equal. -/
theorem subscribe_ref_dedup (st : Manager) (s : Subscription)
    (hfresh : ∀ t ∈ st.subscriptions, t.refId ≠ s.refId)
    (hpay : ∀ t ∈ st.subscriptions, t.payload ≠ s.payload)
    (hws : st.ws = WsRef.opened) :
    ((subscribe (subscribe st s).1 s).1).subscriptions =
      ((subscribe st s).1).subscriptions ∧
    ((subscribe st s).1).subscriptions.countP (fun t => t.payload == s.payload) = 1 ∧
    ((replayAll (subscribe st s).1).2).count
        (Effect.transmit (OutMsg.subMsg s.payload)) = 1 := by
  obtain ⟨w, r, c, q, su⟩ := st
  simp at hws
  subst hws
  have hadd : setAdd su s = su ++ [s] := setAdd_fresh su s hfresh
  have hsub1 : (subscribe ⟨WsRef.opened, r, c, q, su⟩ s).1 =
      ⟨WsRef.opened, r, c, q, su ++ [s]⟩ := by
    simp [subscribe, send, hadd]
  have hpres : setAdd (su ++ [s]) s = su ++ [s] :=
    setAdd_present _ _ (by simp)
  have hzero : su.countP (fun t => t.payload == s.payload) = 0 := by
    rw [List.countP_eq_zero]
    intro t ht
    simp [hpay t ht]
  have hrep := replayAll_opened ⟨WsRef.opened, r, c, q, su ++ [s]⟩ rfl
  refine ⟨?_, ?_, ?_⟩
  · rw [hsub1]
    simp [subscribe, send, hpres]
  · rw [hsub1]
    simp [List.countP_append, hzero]
  · rw [hsub1, hrep, count_transmit_sub]
    simp [List.countP_append, hzero]

/-- C1 amended witness: a fresh structurally unique subscription on a
connected manager ends up replayed exactly once. -/
theorem subscribe_ref_dedup_witness :
    (∀ t ∈ connMgr.subscriptions, t.refId ≠ 0) ∧
    (∀ t ∈ connMgr.subscriptions,
      t.payload ≠ (⟨"subscribe_job", "j1"⟩ : SubPayload)) ∧
    connMgr.ws = WsRef.opened ∧
    ((replayAll (subscribe connMgr ⟨0, ⟨"subscribe_job", "j1"⟩⟩).1).2).count
        (Effect.transmit (OutMsg.subMsg ⟨"subscribe_job", "j1"⟩)) = 1 :=
  ⟨by decide, by decide, rfl,
    (subscribe_ref_dedup connMgr ⟨0, ⟨"subscribe_job", "j1"⟩⟩
      (by decide) (by decide) rfl).2.2⟩

/-- C3 counterexample: invoking the teardown closure returned by
`subscribeToJobUpdates` twice sends the unsubscribe wire message twice,
not once — `unsubscribe` sends unconditionally, whether or not the
subscription was still in the set. -/
theorem teardown_double_unsub_counterexample :
    countUnsub twoTeardownEffects = 2 ∧ ¬ countUnsub twoTeardownEffects = 1 := by
  decide

/-- C3 amended: the teardown closure never throws (it is a total
operation), removes the server subscription and the event-bus callback
registration, and is idempotent on state — but each invocation sends
one unsubscribe wire message, so n invocations send n such messages
(two invocations send two), not exactly one. -/
theorem teardown_idempotent (st : Manager) (ev : Events) (refId : Nat)
    (jobId : String) (cb : Nat) (hws : st.ws = WsRef.opened) :
    teardownJob (teardownJob (st, ev) refId jobId cb).1 refId jobId cb =
      ((teardownJob (st, ev) refId jobId cb).1,
        [Effect.transmit (OutMsg.unsubMsg ⟨"subscribe_job", jobId⟩)]) ∧
    (teardownJob (st, ev) refId jobId cb).2 =
      [Effect.transmit (OutMsg.unsubMsg ⟨"subscribe_job", jobId⟩)] ∧
    (∀ t ∈ ((teardownJob (st, ev) refId jobId cb).1.1).subscriptions,
      t.refId ≠ refId) ∧
    cb ∉ getCbs ((teardownJob (st, ev) refId jobId cb).1.2) "job_update" := by
  obtain ⟨w, r, c, q, su⟩ := st
  simp at hws
  subst hws
  have h1 : teardownJob (⟨WsRef.opened, r, c, q, su⟩, ev) refId jobId cb =
      ((⟨WsRef.opened, r, c, q,
          su.filter (fun t => t.refId != refId)⟩, offApply ev "job_update" cb),
        [Effect.transmit (OutMsg.unsubMsg ⟨"subscribe_job", jobId⟩)]) := by
    simp [teardownJob, unsubscribe, setDelete, send]
  refine ⟨?_, ?_, ?_, ?_⟩
  · rw [h1]
    simp [teardownJob, unsubscribe, setDelete, send, filter_idem, offApply_idem]
  · rw [h1]
  · rw [h1]
    intro t ht
    simp [List.mem_filter] at ht
    exact ht.2
  · rw [h1]
    simp [offApply, getCbs_setCbs_same, List.mem_filter]

/-- C3 amended witness: the second teardown invocation on the concrete
post-subscribe state returns the same state and one more unsubscribe
send. -/
theorem teardown_idempotent_witness :
    jobPair.1.ws = WsRef.opened ∧
    teardownJob (teardownJob jobPair 0 "j1" 7).1 0 "j1" 7 =
      ((teardownJob jobPair 0 "j1" 7).1,
        [Effect.transmit (OutMsg.unsubMsg ⟨"subscribe_job", "j1"⟩)]) :=
  ⟨by decide,
    (teardown_idempotent jobPair.1 jobPair.2 0 "j1" 7 (by decide)).1⟩

/-- C10: the reconnect counter is never reset by `connect`, `send`,
`subscribe`, `unsubscribe` or the error handler; the close handler only
increases it; it is zeroed exactly by a successful open or by
`disconnect()`; with the counter already at the maximum, a close —
including the first close of a fresh external `connect` that never
opened — publishes `websocket_disconnected` at once and schedules no
retry. -/
theorem reconnect_counter_policy :
    (∀ st : Manager, (connect st).reconnectAttempts = st.reconnectAttempts) ∧
    (∀ (st : Manager) (m : OutMsg),
      ((send st m).1).reconnectAttempts = st.reconnectAttempts) ∧
    (∀ (st : Manager) (s : Subscription),
      ((subscribe st s).1).reconnectAttempts = st.reconnectAttempts) ∧
    (∀ (st : Manager) (s : Subscription),
      ((unsubscribe st s).1).reconnectAttempts = st.reconnectAttempts) ∧
    (∀ st : Manager, (handleError st).reconnectAttempts = st.reconnectAttempts) ∧
    (∀ st : Manager,
      st.reconnectAttempts ≤ ((handleClose st).1).reconnectAttempts) ∧
    (∀ (st : Manager) (u : Option String),
      ((handleOpen st u).1).reconnectAttempts = 0) ∧
    (∀ st : Manager, (disconnect st).reconnectAttempts = 0) ∧
    (∀ st : Manager, 5 ≤ st.reconnectAttempts →
      (handleClose st).2 =
        [Effect.emitEvt "websocket_disconnected" EmitData.noData] ∧
      ((handleClose st).1).reconnectAttempts = st.reconnectAttempts) ∧
    (handleClose (connect termMgr)).2 =
      [Effect.emitEvt "websocket_disconnected" EmitData.noData] := by
  refine ⟨?_, ?_, ?_, ?_, ?_, ?_, ?_, ?_, ?_, by decide⟩
  · intro st
    simp only [connect]
    split <;> rfl
  · intro st m
    exact send_attempts st m
  · intro st s
    simp only [subscribe]
    exact send_attempts _ _
  · intro st s
    simp only [unsubscribe]
    exact send_attempts _ _
  · intro st
    rfl
  · intro st
    simp only [handleClose]
    split
    · exact Nat.le_succ _
    · exact Nat.le_refl _
  · intro st u
    cases u with
    | none =>
      simp [handleOpen, drain, replayAll, drainFuel_attempts, replayFuel_attempts]
    | some uid =>
      by_cases h : uid = "" <;>
        simp [handleOpen, drain, replayAll, h, drainFuel_attempts,
          replayFuel_attempts, send_attempts]
  · intro st
    rfl
  · intro st h
    have hlt : ¬ ({ st with isConnecting := false, ws := WsRef.null } :
        Manager).reconnectAttempts < maxReconnectAttempts := by
      simp [maxReconnectAttempts]
      omega
    constructor <;> simp [handleClose, hlt]

/-- C10 witness: the terminally disconnected manager has the counter at
the maximum, and a close there publishes only the disconnected event. -/
theorem reconnect_counter_policy_witness :
    5 ≤ termMgr.reconnectAttempts ∧
    (handleClose termMgr).2 =
      [Effect.emitEvt "websocket_disconnected" EmitData.noData] := by
  have h := reconnect_counter_policy
  exact ⟨by decide, (h.2.2.2.2.2.2.2.2.1 termMgr (by decide)).1⟩

end WSClient
